import Mathlib

/-!
Shallow embedding of the `shopify-custom-price` repository's reconciliation
webhook (`src/api/order-paid-webhook.js`) and temporary-variant eviction
engine (`src/app/api/cleanup-variants/route.js`).

The remote Shopify store is modelled as a deterministic oracle (`Store`):
every GraphQL query/mutation the handler issues is answered by a field of the
store, and every remote call (and the body parse) is recorded in an action
trace so that "no remote mutations", "body never parsed" and similar claims
are statable.  JavaScript exceptions (TypeError on null/undefined element
access, explicit `throw new Error`) become an `Err` value carried by
`Except`; the single top-level `try/catch` of the handler maps any error to
HTTP 500, faithfully to the source.
-/

namespace Webhook

/-- A name/value entry of a line item's `properties` array. -/
structure ItemProperty where
  name : String
  value : String
deriving DecidableEq, Repr

/-- A line item of the parsed order JSON.  `properties` is `none` when the
field is absent or not an array (the source guards with `Array.isArray`). -/
structure LineItem where
  variant_id : Nat
  product_id : Nat
  quantity : Int
  properties : Option (List ItemProperty)
deriving DecidableEq, Repr

/-- The parsed order JSON body.  `line_items` is `none` when the field is
missing (iterating it then raises a TypeError, as in JS). -/
structure OrderEvent where
  id : Nat
  line_items : Option (List LineItem)
deriving DecidableEq, Repr

/-- The raw request body: either well-formed JSON of an order, or bytes that
`JSON.parse` rejects. -/
inductive RawBody where
  | malformed (bytes : String)
  | wellFormed (order : OrderEvent)
deriving DecidableEq, Repr

/-- One remote interaction (or the body parse) performed by the handler. -/
inductive Action where
  | parseBody
  | queryOrder (orderId : Nat)
  | queryLocations
  | queryVariantMeta (variantId : Nat)
  | queryProduct (productId : Nat)
  | queryStarterVariant (starterId : String)
  | adjust (inventoryItemId : String) (locationId : String) (delta : Int)
  | markProcessed (orderId : Nat)
deriving DecidableEq, Repr

/-- Remote mutations: inventory adjustments and the idempotency-marker write.
Everything else the handler issues is a read. -/
def Action.isMutation : Action → Bool
  | .adjust _ _ _ => true
  | .markProcessed _ => true
  | _ => false

/-- Errors thrown inside the handler's `try` block. -/
inductive Err where
  | typeError
  | starterNotFound (starterId : String)
  | inventoryUpdateFailed
  | markFailed
deriving DecidableEq, Repr

/-- Deterministic model of the remote Shopify store.
`order oid`: `none` = the order record is null; `some m` = the order exists
and `m` is its `inventory_processed` metafield value (`none` = null metafield).
`variantMetafield vid`: the purchased variant's `starter_variant_id`
metafield (outer `none` = variant null, safe under optional chaining).
`product pid`: `none` = product null; `some nodes` = first-page variant
nodes, each carrying its `inventoryItem.id` (`none` = null inventory item).
`variantInventory sid`: the starter variant's `inventoryItem.id`.
`adjustErrors` / `markErrors`: the `userErrors` lists returned by the
`inventoryAdjustQuantities` / `metafieldsSet` mutations. -/
structure Store where
  locations : List String
  order : Nat → Option (Option String)
  variantMetafield : Nat → Option (Option String)
  product : Nat → Option (List (Option String))
  variantInventory : String → Option (Option String)
  adjustErrors : String → String → Int → List String
  markErrors : Nat → List String

/-- HMAC verification (`verifyWebhook` in the source): computes the digest of
the raw body and compares it to the claimed header with `===`.  A missing
header (`none`) compares unequal to the digest string, hence `false`; the
function is total, never raising. -/
def verifyWebhook (digest : RawBody → String) (rawBody : RawBody)
    (shopifyHmac : Option String) : Bool :=
  match shopifyHmac with
  | some h => digest rawBody = h
  | none => false

/-- The anchored-regex replace `value.replace(/^gid:\/\/shopify\/ProductVariant\//, "")`:
drop the GID type marker when the value starts with it, else leave unchanged. -/
def stripGid (value : String) : String :=
  if "gid://shopify/ProductVariant/".data.isPrefixOf value.data then
    ⟨value.data.drop "gid://shopify/ProductVariant/".data.length⟩
  else value

/-- A line item is dimensioned iff its properties array contains one of the
two recognized dimension marker names. -/
def hasDimension (item : LineItem) : Bool :=
  match item.properties with
  | some props => props.any fun p =>
      p.name = "Individuelle Breite" || p.name = "Individuelle Länge"
  | none => false

/-- JavaScript falsiness of the `starterVariantId` variable: `null` or the
empty string. -/
def jsFalsy : Option String → Bool
  | none => true
  | some s => s = ""

/-- Tiers (a) and (b) of starter-variant resolution: the value of the JS
variable `starterVariantId` after the metafield lookup and the legacy
line-item-property scan (before the `if (!starterVariantId)` fallback). -/
def resolveStarter (st : Store) (item : LineItem) : Option String :=
  let fromMeta : Option String :=
    match st.variantMetafield item.variant_id with
    | some (some v) => if v = "" then none else some v
    | _ => none
  match fromMeta with
  | some v => some v
  | none =>
    match item.properties with
    | some props =>
      match props.find? fun p =>
          p.name = "_starter_variant_id" || p.name = "starter_variant_id" with
      | some p => some (stripGid p.value)
      | none => none
    | none => none

/-- Processing of one line item of the order loop: resolution through the
three tiers, then the inventory adjustment.  Returns the outcome together
with the remote calls performed (in order).  On the first-variant fallback
path the mutation's `userErrors` are not inspected by the source, and none
are inspected here. -/
def processItem (st : Store) (locationId : String) (item : LineItem) :
    Except Err Unit × List Action :=
  if hasDimension item then
    let sv := resolveStarter st item
    let acts := [Action.queryVariantMeta item.variant_id]
    if jsFalsy sv then
      let acts := acts ++ [Action.queryProduct item.product_id]
      match st.product item.product_id with
      | none => (.error .typeError, acts)
      | some [] => (.error .typeError, acts)
      | some (none :: _) => (.error .typeError, acts)
      | some (some fallbackInv :: _) =>
        (.ok (), acts ++ [Action.adjust fallbackInv locationId (-item.quantity)])
    else
      match sv with
      | none => (.error .typeError, acts)
      | some sid =>
        let acts := acts ++ [Action.queryStarterVariant sid]
        match st.variantInventory sid with
        | some (some inv) =>
          let acts := acts ++ [Action.adjust inv locationId (-item.quantity)]
          if (st.adjustErrors inv locationId (-item.quantity)).isEmpty then
            (.ok (), acts)
          else (.error .inventoryUpdateFailed, acts)
        | _ => (.error (.starterNotFound sid), acts)
  else (.ok (), [])

/-- The `for (const item of order.line_items)` loop: items processed in
order, stopping at the first thrown error, accumulating all remote calls
performed up to that point. -/
def processItems (st : Store) (locationId : String) :
    List LineItem → Except Err Unit × List Action
  | [] => (.ok (), [])
  | item :: rest =>
    match processItem st locationId item with
    | (.ok _, acts) =>
      match processItems st locationId rest with
      | (r, acts₂) => (r, acts ++ acts₂)
    | (.error e, acts) => (.error e, acts)

/-- The body of the handler's `try` block after parsing: idempotency check,
location lookup, per-item loop, marker write. -/
def processOrder (st : Store) (order : OrderEvent) :
    Except Err Unit × List Action :=
  let acts := [Action.queryOrder order.id]
  match st.order order.id with
  | none => (.error .typeError, acts)
  | some marker =>
    if marker.isSome then (.ok (), acts)
    else
      let acts := acts ++ [Action.queryLocations]
      match st.locations with
      | [] => (.error .typeError, acts)
      | locationId :: _ =>
        match order.line_items with
        | none => (.error .typeError, acts)
        | some items =>
          match processItems st locationId items with
          | (.ok _, acts₂) =>
            let acts := acts ++ acts₂ ++ [Action.markProcessed order.id]
            if (st.markErrors order.id).isEmpty then (.ok (), acts)
            else (.error .markFailed, acts)
          | (.error e, acts₂) => (.error e, acts ++ acts₂)

/-- The webhook handler on a fully received body: HMAC gate, then the `try`
block (parse + `processOrder`), whose every error is answered 500 by the
single `catch`.  Returns the HTTP status and the trace of actions. -/
def handler (st : Store) (digest : RawBody → String) (rawBody : RawBody)
    (shopifyHmac : Option String) : Nat × List Action :=
  if verifyWebhook digest rawBody shopifyHmac then
    match rawBody with
    | .malformed _ => (500, [Action.parseBody])
    | .wellFormed order =>
      match processOrder st order with
      | (.ok _, acts) => (200, Action.parseBody :: acts)
      | (.error _, acts) => (500, Action.parseBody :: acts)
  else (401, [])

end Webhook

namespace Cleanup

/-- One variant node of the cleanup job's product query (`id`, `title`,
`createdAt`).  Titles are modelled as character lists; `createdAt` is the
epoch-millisecond timestamp `new Date(createdAt).getTime()`. -/
structure VariantNode where
  id : Nat
  title : List Char
  createdAt : Int
deriving DecidableEq, Repr

/-- A product with its (first page of) variant nodes. -/
structure Product where
  id : Nat
  variants : List VariantNode
deriving DecidableEq, Repr

/-- The cleanup job's configuration: the variant-count ceiling
(`TEMP_VARIANT_MAX_COUNT`), the protection buffer in minutes
(`TEMP_VARIANT_BUFFER_MINUTES`) and the current time `Date.now()`. -/
structure Cfg where
  maxVariants : Nat
  bufferMinutes : Int
  now : Int
deriving DecidableEq, Repr

/-- The source's `isTemporaryVariant`: a pure prefix test
`title.startsWith("Length |") || title.startsWith("Width |")`. -/
def isTemporaryVariant (title : List Char) : Bool :=
  "Length |".data.isPrefixOf title || "Width |".data.isPrefixOf title

/-- The source's `isOlderThanBuffer`: `Date.now() - createdTime > bufferMs`. -/
def isOlderThanBuffer (cfg : Cfg) (createdAt : Int) : Bool :=
  cfg.now - createdAt > cfg.bufferMinutes * 60 * 1000

/-- The product's temporary variants, in query order. -/
def tempVariants (p : Product) : List VariantNode :=
  p.variants.filter fun v => isTemporaryVariant v.title

/-- Creation-time order on variant nodes: the JS comparator
`new Date(a.createdAt) - new Date(b.createdAt)` sorts ascending by this
relation. -/
def createdLE (a b : VariantNode) : Prop := a.createdAt ≤ b.createdAt

instance : DecidableRel createdLE := fun a b =>
  inferInstanceAs (Decidable (a.createdAt ≤ b.createdAt))

instance : IsTotal VariantNode createdLE :=
  ⟨fun a b => Int.le_total a.createdAt b.createdAt⟩

instance : IsTrans VariantNode createdLE :=
  ⟨fun _ _ _ hab hbc => le_trans hab hbc⟩

/-- The eligible (older-than-buffer) temporary variants sorted by creation
time ascending — the source's `deletable` array (`filter` then JavaScript's
stable ascending `sort` on `createdAt`, modelled by the stable
`insertionSort`). -/
def deletable (cfg : Cfg) (p : Product) : List VariantNode :=
  ((tempVariants p).filter fun v =>
    isOlderThanBuffer cfg v.createdAt).insertionSort createdLE

/-- The source's `cleanupProduct`, returning the variants it deletes (the
`toDelete` slice): nothing when the temporary count is within the ceiling,
else the first `count - ceiling` entries of `deletable`. -/
def cleanupProduct (cfg : Cfg) (p : Product) : List VariantNode :=
  if (tempVariants p).length ≤ cfg.maxVariants then []
  else (deletable cfg p).take ((tempVariants p).length - cfg.maxVariants)

/-- One full sweep (`GET`) over the paginated catalog: `cleanupProduct`
applied to every product in page order; the concatenation is the list of all
deletions the sweep performs. -/
def sweepDeletions (cfg : Cfg) (products : List Product) : List VariantNode :=
  products.flatMap (cleanupProduct cfg)

/-- Modelled from the spec: the recognized temporary-variant title pattern —
`"<Dimension-Label> | <value> mm"`, optionally repeated once as
`"... X ..."` for area labels, with a numeric millimeter value and the
dimension labels of the two recognized languages.  This definition follows
the spec's words (§4.4 step 1, §3 Temporary Variant) and exists only to be
compared against the source's `isTemporaryVariant`. -/
def specLabels : List (List Char) :=
  ["Length".data, "Width".data, "Länge".data, "Breite".data]

/-- Modelled from the spec: parse one `"<Label> | <digits> mm"` segment,
returning the remainder of the title on success. -/
def specParseSegment (l : List Char) : Option (List Char) :=
  match specLabels.find? fun lab => (lab ++ " | ".data).isPrefixOf l with
  | none => none
  | some lab =>
    let rest := l.drop (lab.length + 3)
    let digits := rest.takeWhile fun c => c.isDigit
    if digits.isEmpty then none
    else
      let rest₂ := rest.drop digits.length
      if " mm".data.isPrefixOf rest₂ then some (rest₂.drop 3) else none

/-- Modelled from the spec: a title matches the recognized temporary-variant
pattern iff it is one segment, or two segments joined by `" X "`. -/
def specTemporaryTitle (title : List Char) : Bool :=
  match specParseSegment title with
  | none => false
  | some [] => true
  | some rest =>
    if " X ".data.isPrefixOf rest then
      match specParseSegment (rest.drop 3) with
      | some [] => true
      | _ => false
    else false

end Cleanup

namespace Webhook

/-! Concrete fixtures used by witnesses and counterexamples. -/

/-- A digest oracle whose value is the constant string `"D"`; pairing it with
the header `some "D"` makes verification succeed, any other header fails. -/
def dEx : RawBody → String := fun _ => "D"

/-- A dimensioned line item with neither starter annotation nor legacy
property: resolution must take the first-variant fallback path. -/
def itemFallback : LineItem :=
  { variant_id := 7, product_id := 5, quantity := 2,
    properties := some [{ name := "Individuelle Breite", value := "500" }] }

/-- A dimensioned line item carrying a legacy starter property whose value is
exactly the GID marker, so that stripping leaves the empty string. -/
def itemEmptyLegacy : LineItem :=
  { variant_id := 7, product_id := 5, quantity := 2,
    properties := some
      [{ name := "Individuelle Breite", value := "500" },
       { name := "starter_variant_id", value := "gid://shopify/ProductVariant/" }] }

/-- A dimensioned line item carrying a legacy starter property with a plain
numeric identifier. -/
def itemLegacy : LineItem :=
  { variant_id := 7, product_id := 5, quantity := 2,
    properties := some
      [{ name := "Individuelle Breite", value := "500" },
       { name := "starter_variant_id", value := "77" }] }

/-- A single-item order built around `itemFallback`. -/
def orderFallback : OrderEvent := { id := 1, line_items := some [itemFallback] }

/-- A single-item order built around `itemLegacy`. -/
def orderLegacy : OrderEvent := { id := 1, line_items := some [itemLegacy] }

/-- A store on which every remote interaction succeeds: one location, the
order exists and is unmarked, no starter metafield, the product's first
variant backs inventory item `INV1`, starter variants resolve to `INV2`, and
no mutation reports user errors. -/
def stBase : Store :=
  { locations := ["L1"],
    order := fun _ => some none,
    variantMetafield := fun _ => none,
    product := fun _ => some [some "INV1"],
    variantInventory := fun _ => some (some "INV2"),
    adjustErrors := fun _ _ _ => [],
    markErrors := fun _ => [] }

/-- `stBase` with the idempotency marker already present on every order. -/
def stMarked : Store := { stBase with order := fun _ => some (some "true") }

/-- `stBase` except the order record is null (unknown order ID). -/
def stNoOrder : Store := { stBase with order := fun _ => none }

/-- `stBase` except the store has zero locations. -/
def stNoLoc : Store := { stBase with locations := [] }

/-- `stBase` except every product has an empty variant list. -/
def stNoVariants : Store := { stBase with product := fun _ => some [] }

/-- `stBase` except the fallback-path inventory adjustment (on `INV1`)
reports a user error. -/
def stFallbackErr : Store :=
  { stBase with adjustErrors := fun inv _ _ => if inv = "INV1" then ["boom"] else [] }

/-- `stBase` except the starter-path inventory adjustment (on `INV2`)
reports a user error. -/
def stStarterErr : Store :=
  { stBase with adjustErrors := fun inv _ _ => if inv = "INV2" then ["boom"] else [] }

/-- `stBase` except starter-variant lookups return a null variant, so the
starter path fails with "Starter variant not found". -/
def stNoStarter : Store := { stBase with variantInventory := fun _ => none }

end Webhook

namespace Cleanup

/-- A temporary-variant node fixture: title `"Length | 100 mm"` with the
given id and creation time. -/
def mkVar (i : Nat) (t : Int) : VariantNode :=
  { id := i, title := "Length | 100 mm".data, createdAt := t }

/-- The spec's eviction-threshold example configuration: ceiling 3, buffer
60 minutes, "now" at 10 000 000 ms. -/
def cfgEx : Cfg := { maxVariants := 3, bufferMinutes := 60, now := 10000000 }

/-- Five temporary variants, all older than the buffer, in scrambled
creation order. -/
def prodEx : Product :=
  { id := 1,
    variants := [mkVar 1 5000, mkVar 2 3000, mkVar 3 1000, mkVar 4 4000, mkVar 5 2000] }

/-- The spec's buffer-protection example: ceiling 1 and five temporary
variants all younger than the buffer (created at "now"). -/
def cfgYoung : Cfg := { maxVariants := 1, bufferMinutes := 60, now := 10000000 }

/-- Five temporary variants created at time "now" (age zero). -/
def prodYoung : Product :=
  { id := 2,
    variants := [mkVar 1 10000000, mkVar 2 10000000, mkVar 3 10000000,
                 mkVar 4 10000000, mkVar 5 10000000] }

/-! Helper lemmas. -/

/-- Boolean prefix test characterized by list append. -/
theorem isPrefixOf_iff_append (p : List Char) :
    ∀ l : List Char, p.isPrefixOf l = true ↔ ∃ s, l = p ++ s := by
  induction p with
  | nil =>
    intro l
    simp [List.isPrefixOf]
  | cons a as ih =>
    intro l
    cases l with
    | nil => simp [List.isPrefixOf]
    | cons b bs =>
      simp only [List.isPrefixOf, Bool.and_eq_true, beq_iff_eq, ih bs,
        List.cons_append, List.cons.injEq]
      constructor
      · rintro ⟨hab, s, hs⟩
        exact ⟨s, hab.symm, hs⟩
      · rintro ⟨s, hab, hs⟩
        exact ⟨hab.symm, s, hs⟩

/-- Every variant the per-product cleanup deletes is an older-than-buffer
temporary variant of that product. -/
theorem mem_cleanupProduct (cfg : Cfg) (p : Product) (v : VariantNode)
    (hv : v ∈ cleanupProduct cfg p) :
    v ∈ tempVariants p ∧ isOlderThanBuffer cfg v.createdAt = true := by
  unfold cleanupProduct at hv
  split at hv
  · simp at hv
  · have h₁ : v ∈ deletable cfg p := List.mem_of_mem_take hv
    unfold deletable at h₁
    rw [List.mem_insertionSort] at h₁
    rw [List.mem_filter] at h₁
    exact h₁

/-! Claim theorems for the eviction engine. -/

/-- C7: for every product in a sweep, a temporary-variant count at or below
the ceiling deletes nothing; above the ceiling, exactly
`min (count - ceiling) (number of eligible variants)` are deleted, and each
deleted variant was created no later than every eligible variant left
undeleted (oldest-created first). -/
theorem C7_eviction_threshold (cfg : Cfg) (p : Product) :
    ((tempVariants p).length ≤ cfg.maxVariants → cleanupProduct cfg p = []) ∧
    (cfg.maxVariants < (tempVariants p).length →
      (cleanupProduct cfg p).length =
        min ((tempVariants p).length - cfg.maxVariants)
          (((tempVariants p).filter fun v =>
            isOlderThanBuffer cfg v.createdAt).length) ∧
      ∃ rest,
        (((tempVariants p).filter fun v =>
          isOlderThanBuffer cfg v.createdAt)).Perm (cleanupProduct cfg p ++ rest) ∧
        ∀ d ∈ cleanupProduct cfg p, ∀ r ∈ rest, d.createdAt ≤ r.createdAt) := by
  constructor
  · intro h
    unfold cleanupProduct
    rw [if_pos h]
  · intro h
    have hnot : ¬ (tempVariants p).length ≤ cfg.maxVariants := Nat.not_le.mpr h
    have hdef : cleanupProduct cfg p =
        (deletable cfg p).take ((tempVariants p).length - cfg.maxVariants) := by
      unfold cleanupProduct
      rw [if_neg hnot]
    refine ⟨?_, ?_⟩
    · rw [hdef, List.length_take]
      unfold deletable
      rw [List.length_insertionSort]
    · refine ⟨(deletable cfg p).drop ((tempVariants p).length - cfg.maxVariants),
        ?_, ?_⟩
      · have hperm : (((tempVariants p).filter fun v =>
            isOlderThanBuffer cfg v.createdAt)).Perm (deletable cfg p) :=
          (List.perm_insertionSort createdLE _).symm
        rw [← List.take_append_drop
          ((tempVariants p).length - cfg.maxVariants) (deletable cfg p)] at hperm
        rw [hdef]
        exact hperm
      · have hpair : (deletable cfg p).Pairwise createdLE :=
          List.sorted_insertionSort createdLE
            ((tempVariants p).filter fun v => isOlderThanBuffer cfg v.createdAt)
        rw [← List.take_append_drop
          ((tempVariants p).length - cfg.maxVariants) (deletable cfg p),
          List.pairwise_append] at hpair
        intro d hd r hr
        rw [hdef] at hd
        exact hpair.2.2 d hd r hr

/-- Witness for C7: the spec's example — ceiling 3 with five temporary
variants all older than the buffer deletes exactly two, the two oldest. -/
theorem C7_witness :
    cfgEx.maxVariants < (tempVariants prodEx).length ∧
    (cleanupProduct cfgEx prodEx).length = 2 ∧
    cleanupProduct cfgEx prodEx = [mkVar 3 1000, mkVar 5 2000] := by
  refine ⟨by decide, ?_, by decide⟩
  have h := ((C7_eviction_threshold cfgEx prodEx).2 (by decide)).1
  rw [h]
  decide

/-- C8: no sweep ever deletes a temporary variant whose age does not exceed
the buffer, regardless of how far the population exceeds the ceiling. -/
theorem C8_buffer_protection (cfg : Cfg) (products : List Product)
    (v : VariantNode) (h : isOlderThanBuffer cfg v.createdAt = false) :
    v ∉ sweepDeletions cfg products := by
  intro hmem
  unfold sweepDeletions at hmem
  rw [List.mem_flatMap] at hmem
  obtain ⟨p, _, hp⟩ := hmem
  have hold := (mem_cleanupProduct cfg p v hp).2
  rw [h] at hold
  exact Bool.false_ne_true hold

/-- Witness for C8: the spec's example — ceiling 1 with five temporary
variants all younger than the buffer deletes none of them. -/
theorem C8_witness : mkVar 1 10000000 ∉ sweepDeletions cfgYoung [prodYoung] :=
  C8_buffer_protection cfgYoung [prodYoung] (mkVar 1 10000000) (by decide)

/-- Counterexample for C9: the source classifies by the literal prefixes
`"Length |"` / `"Width |"` only, so a title with no numeric millimeter value
is still classified temporary, while a German-labelled title that matches
the spec's recognized pattern is not. -/
theorem C9_counterexample :
    isTemporaryVariant "Length | foo".data = true ∧
    specTemporaryTitle "Length | foo".data = false ∧
    isTemporaryVariant "Länge | 100 mm".data = false ∧
    specTemporaryTitle "Länge | 100 mm".data = true :=
  ⟨by decide, by decide, by decide, by decide⟩

/-- C9 as amended: the eviction engine classifies a title as temporary iff
it starts with the literal English prefix `"Length |"` or `"Width |"` — no
validation of a numeric millimeter value and no German labels. -/
theorem C9_amended_classification (t : List Char) :
    isTemporaryVariant t = true ↔
      (∃ s, t = "Length |".data ++ s) ∨ (∃ s, t = "Width |".data ++ s) := by
  unfold isTemporaryVariant
  rw [Bool.or_eq_true, isPrefixOf_iff_append, isPrefixOf_iff_append]

/-- Witness for C9: the amended classification applied to a concrete title. -/
theorem C9_witness : isTemporaryVariant ("Length |".data ++ "-".data) = true :=
  (C9_amended_classification _).mpr (Or.inl ⟨"-".data, rfl⟩)

end Cleanup

namespace Webhook

/-! Helper lemmas for the webhook handler. -/

/-- Per-item processing never writes the idempotency marker. -/
theorem markProcessed_not_in_processItem (st : Store) (loc : String)
    (item : LineItem) (i : Nat) :
    Action.markProcessed i ∉ (processItem st loc item).2 := by
  unfold processItem
  cases hdim : hasDimension item with
  | false => simp [hdim]
  | true =>
    cases hf : jsFalsy (resolveStarter st item) with
    | true =>
      cases hprod : st.product item.product_id with
      | none => simp [hdim, hf, hprod]
      | some l =>
        cases l with
        | nil => simp [hdim, hf, hprod]
        | cons a tl =>
          cases a with
          | none => simp [hdim, hf, hprod]
          | some inv => simp [hdim, hf, hprod]
    | false =>
      cases hres : resolveStarter st item with
      | none =>
        rw [hres] at hf
        simp [jsFalsy] at hf
      | some sid =>
        rw [hres] at hf
        cases hinv : st.variantInventory sid with
        | none => simp [hdim, hf, hres, hinv]
        | some iv =>
          cases iv with
          | none => simp [hdim, hf, hres, hinv]
          | some inv =>
            cases herr : (st.adjustErrors inv loc (-item.quantity)).isEmpty <;>
              simp [hdim, hf, hres, hinv, herr]

/-- The line-item loop never writes the idempotency marker. -/
theorem markProcessed_not_in_processItems (st : Store) (loc : String) :
    ∀ (items : List LineItem) (i : Nat),
      Action.markProcessed i ∉ (processItems st loc items).2 := by
  intro items
  induction items with
  | nil => intro i; simp [processItems]
  | cons item rest ih =>
    intro i
    unfold processItems
    cases hpi : processItem st loc item with
    | mk r acts =>
      have h₁ := markProcessed_not_in_processItem st loc item i
      rw [hpi] at h₁
      cases r with
      | ok u =>
        cases hps : processItems st loc rest with
        | mk r₂ acts₂ =>
          have h₂ := ih i
          rw [hps] at h₂
          simp only [List.mem_append]
          rintro (h | h)
          · exact h₁ h
          · exact h₂ h
      | error e => exact h₁

/-- The handler answers every request with one of the three statuses the
source can produce: 200, 401 or 500. -/
theorem handler_status (st : Store) (digest : RawBody → String)
    (raw : RawBody) (h? : Option String) :
    (handler st digest raw h?).1 = 200 ∨ (handler st digest raw h?).1 = 401 ∨
    (handler st digest raw h?).1 = 500 := by
  unfold handler
  split
  · split
    · simp
    · split
      · simp
      · simp
  · simp

/-! Claim theorems for the order-paid webhook. -/

/-- C1: when the idempotency marker is already present for the event's order
ID, the handler returns HTTP 200 after the single marker query, performing
no inventory adjustment and no remote mutation of any kind. -/
theorem C1_idempotency (st : Store) (digest : RawBody → String)
    (o : OrderEvent) (h? : Option String) (v : String)
    (hmark : st.order o.id = some (some v))
    (hver : verifyWebhook digest (.wellFormed o) h? = true) :
    handler st digest (.wellFormed o) h? =
      (200, [Action.parseBody, Action.queryOrder o.id]) ∧
    ∀ a ∈ (handler st digest (.wellFormed o) h?).2, a.isMutation = false := by
  have hpo : processOrder st o = (.ok (), [Action.queryOrder o.id]) := by
    unfold processOrder
    rw [hmark]
    simp
  have hh : handler st digest (.wellFormed o) h? =
      (200, [Action.parseBody, Action.queryOrder o.id]) := by
    unfold handler
    rw [hver]
    simp [hpo]
  refine ⟨hh, ?_⟩
  intro a ha
  rw [hh] at ha
  simp only [List.mem_cons, List.not_mem_nil, or_false, List.mem_singleton] at ha
  rcases ha with h | h <;> rw [h] <;> rfl

/-- Witness for C1: a marked order on a concrete store is answered 200 with
only the parse and the marker query in its trace. -/
theorem C1_witness :
    handler stMarked dEx (.wellFormed orderFallback) (some "D") =
      (200, [Action.parseBody, Action.queryOrder 1]) :=
  (C1_idempotency stMarked dEx orderFallback (some "D") "true" rfl (by decide)).1

/-- C2: a missing signature header always fails verification, and any
request failing HMAC verification is answered 401 with no body parse and no
remote call at all. -/
theorem C2_signature_rejection :
    (∀ (st : Store) (digest : RawBody → String) (raw : RawBody),
      handler st digest raw none = (401, [])) ∧
    (∀ (st : Store) (digest : RawBody → String) (raw : RawBody)
      (h? : Option String),
      verifyWebhook digest raw h? = false →
      handler st digest raw h? = (401, [])) := by
  constructor
  · intro st d raw
    unfold handler verifyWebhook
    simp
  · intro st d raw h? hv
    unfold handler
    rw [hv]
    simp

/-- Witness for C2: a request whose digest mismatches the claimed header is
answered 401 with an empty trace. -/
theorem C2_witness : handler stBase dEx (.malformed "x") (some "X") = (401, []) :=
  C2_signature_rejection.2 stBase dEx (.malformed "x") (some "X") (by decide)

end Webhook

namespace Webhook

/-- Counterexample for C3: a dimensioned line item with no durable
annotation but WITH a legacy `starter_variant_id` property (value exactly
the GID marker, stripping to the empty string).  Tier (b) of the claim says
the stripped value is used; the source instead falls through to the
first-variant fallback and deducts there directly, never looking up a
starter variant. -/
theorem C3_counterexample :
    itemEmptyLegacy.properties = some
      [{ name := "Individuelle Breite", value := "500" },
       { name := "starter_variant_id", value := "gid://shopify/ProductVariant/" }] ∧
    stripGid "gid://shopify/ProductVariant/" = "" ∧
    processItem stBase "L1" itemEmptyLegacy =
      (.ok (), [Action.queryVariantMeta 7, Action.queryProduct 5,
                Action.adjust "INV1" "L1" (-2)]) := by
  set_option maxRecDepth 4000 in
  exact ⟨rfl, by decide, rfl⟩

/-- C3 as amended: the three-tier priority holds with tier (b) conditioned
on JavaScript truthiness — (1) a present, non-empty durable annotation wins;
(2) otherwise a legacy property's value is used after prefix-stripping;
(3) with neither, resolution yields nothing; (4) whenever the resolved value
is falsy (absent OR stripped to the empty string), the fallback path queries
the product, deducts directly against its first variant's inventory item and
skips the starter lookup and the starter deduction. -/
theorem C3_amended_resolution :
    (∀ (st : Store) (item : LineItem) (v : String),
      st.variantMetafield item.variant_id = some (some v) → v ≠ "" →
      resolveStarter st item = some v) ∧
    (∀ (st : Store) (item : LineItem) (props : List ItemProperty)
      (p : ItemProperty),
      (∀ v, st.variantMetafield item.variant_id = some (some v) → v = "") →
      item.properties = some props →
      props.find? (fun q =>
        q.name = "_starter_variant_id" || q.name = "starter_variant_id") = some p →
      resolveStarter st item = some (stripGid p.value)) ∧
    (∀ (st : Store) (item : LineItem),
      (∀ v, st.variantMetafield item.variant_id = some (some v) → v = "") →
      (∀ props, item.properties = some props →
        props.find? (fun q =>
          q.name = "_starter_variant_id" || q.name = "starter_variant_id") = none) →
      resolveStarter st item = none) ∧
    (∀ (st : Store) (loc : String) (item : LineItem) (inv : String)
      (rest : List (Option String)),
      hasDimension item = true →
      jsFalsy (resolveStarter st item) = true →
      st.product item.product_id = some (some inv :: rest) →
      processItem st loc item =
        (.ok (), [Action.queryVariantMeta item.variant_id,
                  Action.queryProduct item.product_id,
                  Action.adjust inv loc (-item.quantity)])) := by
  refine ⟨?_, ?_, ?_, ?_⟩
  · intro st item v hm hv
    unfold resolveStarter
    rw [hm]
    simp [hv]
  · intro st item props p hmeta hprops hfind
    unfold resolveStarter
    cases hm : st.variantMetafield item.variant_id with
    | none => simp [hprops, hfind]
    | some mv =>
      cases mv with
      | none => simp [hprops, hfind]
      | some v =>
        have hv : v = "" := hmeta v hm
        subst hv
        simp [hprops, hfind]
  · intro st item hmeta hprops
    unfold resolveStarter
    cases hm : st.variantMetafield item.variant_id with
    | none =>
      cases hp : item.properties with
      | none => simp
      | some props => simp [hprops props hp]
    | some mv =>
      cases mv with
      | none =>
        cases hp : item.properties with
        | none => simp
        | some props => simp [hprops props hp]
      | some v =>
        have hv : v = "" := hmeta v hm
        subst hv
        cases hp : item.properties with
        | none => simp
        | some props => simp [hprops props hp]
  · intro st loc item inv rest hdim hfal hprod
    unfold processItem
    simp [hdim, hfal, hprod]

/-- Witness for C3: tier (b) resolves a concrete legacy-property item to its
stripped value, and a concrete annotation-free item takes the fallback path
with a direct first-variant deduction. -/
theorem C3_witness :
    resolveStarter stBase itemLegacy = some (stripGid "77") ∧
    processItem stBase "L1" itemFallback =
      (.ok (), [Action.queryVariantMeta 7, Action.queryProduct 5,
                Action.adjust "INV1" "L1" (-2)]) := by
  constructor
  · exact C3_amended_resolution.2.1 stBase itemLegacy _
      { name := "starter_variant_id", value := "77" }
      (by intro v h; simp [stBase] at h) rfl rfl
  · exact C3_amended_resolution.2.2.2 stBase "L1" itemFallback "INV1" []
      (by decide) (by decide) rfl

end Webhook

namespace Webhook

/-- Counterexample for C4: on the first-variant fallback path the mutation's
embedded user-error list is NOT checked — with a store whose fallback
adjustment reports a user error, the event still completes with HTTP 200 and
the idempotency marker is written, instead of aborting with 500. -/
theorem C4_counterexample :
    stFallbackErr.adjustErrors "INV1" "L1" (-2) = ["boom"] ∧
    handler stFallbackErr dEx (.wellFormed orderFallback) (some "D") =
      (200, [Action.parseBody, Action.queryOrder 1, Action.queryLocations,
             Action.queryVariantMeta 7, Action.queryProduct 5,
             Action.adjust "INV1" "L1" (-2), Action.markProcessed 1]) := by
  exact ⟨by decide, rfl⟩

/-- C4 as amended: on the starter-variant path (tiers a/b) a user error
embedded in the inventory-adjustment result aborts the whole event with
HTTP 500 after the mutation was issued, and the idempotency marker is never
written; the fallback path's adjustment result is not checked. -/
theorem C4_amended_user_errors (st : Store) (digest : RawBody → String)
    (h? : Option String) (oid : Nat) (item : LineItem)
    (loc : String) (locs : List String) (sid inv : String)
    (hver : verifyWebhook digest (.wellFormed ⟨oid, some [item]⟩) h? = true)
    (hord : st.order oid = some none)
    (hloc : st.locations = loc :: locs)
    (hdim : hasDimension item = true)
    (hres : resolveStarter st item = some sid)
    (hsid : sid ≠ "")
    (hinv : st.variantInventory sid = some (some inv))
    (herr : st.adjustErrors inv loc (-item.quantity) ≠ []) :
    (handler st digest (.wellFormed ⟨oid, some [item]⟩) h?).1 = 500 ∧
    Action.adjust inv loc (-item.quantity) ∈
      (handler st digest (.wellFormed ⟨oid, some [item]⟩) h?).2 ∧
    ∀ i, Action.markProcessed i ∉
      (handler st digest (.wellFormed ⟨oid, some [item]⟩) h?).2 := by
  have hfal : jsFalsy (some sid) = false := by
    simp [jsFalsy, hsid]
  have herr' : (st.adjustErrors inv loc (-item.quantity)).isEmpty = false := by
    cases hca : st.adjustErrors inv loc (-item.quantity) with
    | nil => exact absurd hca herr
    | cons a l => rfl
  have hitem : processItem st loc item =
      (.error .inventoryUpdateFailed,
       [Action.queryVariantMeta item.variant_id,
        Action.queryStarterVariant sid,
        Action.adjust inv loc (-item.quantity)]) := by
    unfold processItem
    simp [hdim, hfal, hres, hinv, herr']
  have hitems : processItems st loc [item] =
      (.error .inventoryUpdateFailed,
       [Action.queryVariantMeta item.variant_id,
        Action.queryStarterVariant sid,
        Action.adjust inv loc (-item.quantity)]) := by
    unfold processItems
    rw [hitem]
  have hpo : processOrder st ⟨oid, some [item]⟩ =
      (.error .inventoryUpdateFailed,
       [Action.queryOrder oid, Action.queryLocations,
        Action.queryVariantMeta item.variant_id,
        Action.queryStarterVariant sid,
        Action.adjust inv loc (-item.quantity)]) := by
    unfold processOrder
    simp [hord, hloc, hitems]
  have hh : handler st digest (.wellFormed ⟨oid, some [item]⟩) h? =
      (500, [Action.parseBody, Action.queryOrder oid, Action.queryLocations,
             Action.queryVariantMeta item.variant_id,
             Action.queryStarterVariant sid,
             Action.adjust inv loc (-item.quantity)]) := by
    unfold handler
    rw [hver]
    simp [hpo]
  refine ⟨by rw [hh], by rw [hh]; simp, ?_⟩
  intro i
  rw [hh]
  simp

/-- Witness for C4: a concrete starter-path order whose adjustment reports a
user error is answered 500 with no marker write. -/
theorem C4_witness :
    (handler stStarterErr dEx (.wellFormed orderLegacy) (some "D")).1 = 500 ∧
    Action.markProcessed 1 ∉
      (handler stStarterErr dEx (.wellFormed orderLegacy) (some "D")).2 := by
  have h := C4_amended_user_errors stStarterErr dEx (some "D") 1 itemLegacy
    "L1" [] "77" "INV2" (by decide) rfl rfl (by decide) (by decide)
    (by decide) rfl (by decide)
  exact ⟨h.1, h.2.2 1⟩

/-- Counterexample for C5: a body that fails to parse, behind a valid
signature, is answered HTTP 500 by the generic catch — not the 400 the claim
requires. -/
theorem C5_counterexample :
    handler stBase dEx (.malformed "not json") (some "D") =
      (500, [Action.parseBody]) ∧
    (handler stBase dEx (.malformed "not json") (some "D")).1 ≠ 400 :=
  ⟨rfl, by decide⟩

/-- C5 as amended: a malformed body behind a valid signature is answered
HTTP 500 through the single top-level catch, immediately after the parse
attempt; the handler has no 400 response on any input. -/
theorem C5_amended_malformed :
    (∀ (st : Store) (digest : RawBody → String) (bytes : String)
      (h? : Option String),
      verifyWebhook digest (.malformed bytes) h? = true →
      handler st digest (.malformed bytes) h? = (500, [Action.parseBody])) ∧
    (∀ (st : Store) (digest : RawBody → String) (raw : RawBody)
      (h? : Option String), (handler st digest raw h?).1 ≠ 400) := by
  constructor
  · intro st d bytes h? hver
    unfold handler
    rw [hver]
    simp
  · intro st d raw h?
    rcases handler_status st d raw h? with h | h | h <;> rw [h] <;> decide

/-- Witness for C5: the amended malformed-body behaviour at a concrete
request. -/
theorem C5_witness :
    handler stBase dEx (.malformed "\x7b\x7bbad") (some "D") =
      (500, [Action.parseBody]) :=
  C5_amended_malformed.1 stBase dEx "\x7b\x7bbad" (some "D") (by decide)

/-- C6: when the line-item loop throws (any resolution or deduction
failure), the handler answers 500 and the idempotency marker is never
written — the marker write happens only after every line item succeeded. -/
theorem C6_no_marker_on_failure (st : Store) (digest : RawBody → String)
    (o : OrderEvent) (h? : Option String) (items : List LineItem)
    (loc : String) (locs : List String) (e : Err) (tr : List Action)
    (hver : verifyWebhook digest (.wellFormed o) h? = true)
    (hord : st.order o.id = some none)
    (hloc : st.locations = loc :: locs)
    (hitems : o.line_items = some items)
    (hfail : processItems st loc items = (.error e, tr)) :
    (handler st digest (.wellFormed o) h?).1 = 500 ∧
    ∀ i, Action.markProcessed i ∉ (handler st digest (.wellFormed o) h?).2 := by
  have hpo : processOrder st o =
      (.error e, [Action.queryOrder o.id, Action.queryLocations] ++ tr) := by
    unfold processOrder
    simp [hord, hloc, hitems, hfail]
  have hh : handler st digest (.wellFormed o) h? =
      (500, Action.parseBody ::
        ([Action.queryOrder o.id, Action.queryLocations] ++ tr)) := by
    unfold handler
    rw [hver]
    simp [hpo]
  refine ⟨by rw [hh], ?_⟩
  intro i hmem
  rw [hh] at hmem
  simp at hmem
  have hni := markProcessed_not_in_processItems st loc items i
  rw [hfail] at hni
  exact hni hmem

/-- Witness for C6: a concrete order whose starter variant cannot be found
fails with 500 and leaves no marker write in the trace. -/
theorem C6_witness :
    (handler stNoStarter dEx (.wellFormed orderLegacy) (some "D")).1 = 500 ∧
    Action.markProcessed 1 ∉
      (handler stNoStarter dEx (.wellFormed orderLegacy) (some "D")).2 := by
  have h := C6_no_marker_on_failure stNoStarter dEx orderLegacy (some "D")
    [itemLegacy] "L1" [] (.starterNotFound "77")
    [Action.queryVariantMeta 7, Action.queryStarterVariant "77"]
    (by decide) rfl rfl rfl rfl
  exact ⟨h.1, h.2 1⟩

/-- C10: the handler always produces exactly one response, drawn from
the statuses 200, 401 and 500; concretely, an unknown order ID at the idempotency
check, a store with zero locations, and a product with zero variants on the
fallback path each raise a TypeError that the single top-level catch answers
with 500 — never a structured 400/404 and never a missing response. -/
theorem C10_single_response :
    (∀ (st : Store) (digest : RawBody → String) (raw : RawBody)
      (h? : Option String),
      (handler st digest raw h?).1 = 200 ∨ (handler st digest raw h?).1 = 401 ∨
      (handler st digest raw h?).1 = 500) ∧
    (handler stNoOrder dEx (.wellFormed orderFallback) (some "D")).1 = 500 ∧
    (handler stNoLoc dEx (.wellFormed orderFallback) (some "D")).1 = 500 ∧
    (handler stNoVariants dEx (.wellFormed orderFallback) (some "D")).1 = 500 :=
  ⟨handler_status, rfl, rfl, rfl⟩

end Webhook
